import Mathlib

/-!
Verification of the geospatial matching/filtering layer of the parent-map
web application (rainfall nowcast lookup, nearby-carpark radius filter,
map viewport culling, attribute filters, TTL-based client caching).

Modelling conventions.

* JavaScript numbers that only flow through comparisons, filtering and
  sorting are modelled as rationals (every finite IEEE-754 double is a
  rational).  The Haversine distance itself is transcendental, so the
  record-processing pipeline (`getRainfallAtLocation`, `getNearbyCarparks`,
  `useFilteredPlaces`, the main page filter) is stated for an arbitrary
  distance function `d : ℚ → ℚ → ℚ → ℚ → ℚ`; every theorem therefore holds
  in particular for the float Haversine the source uses.
* The Haversine formula (`calculateDistance` in `src/lib/carpark.ts`,
  `src/lib/rainfall.ts` and `src/components/MapInner.tsx`, all textually
  identical) is embedded over the reals, with `atan2` given the JavaScript
  `Math.atan2` case split.
* `Array.prototype.sort` is stable (ES2019), and every comparator used by
  the source is of the form `key a - key b`; it is modelled by
  `List.mergeSort` with the boolean relation `key a ≤ key b`.
* The `localStorage`-backed caches in `useRainfallNowcast`/`useCarparks`
  are modelled by an explicit cache state (stored payload and timestamp)
  and a pure load step.
-/

/-! ## TTL cache (`useRainfallNowcast` in rainfall.ts, `useCarparks` in carpark.ts)

The two hooks keep a payload and a fetch timestamp in `localStorage` and
refetch when the entry is absent or stale: the cached payload is used iff
both keys are present and `now - parseInt(cachedTime) < ttlMs` (strict).
On a miss the fresh data is stored together with the current time. -/

/-- The `localStorage` state backing one cached dataset: the stored payload
(`rainfall_cache` / `carparks_cache`) and its fetch timestamp
(`rainfall_cache_time` / `carparks_cache_time`), each possibly absent. -/
structure CacheState (α : Type) where
  payload : Option α
  time : Option ℤ
deriving DecidableEq

/-- One run of the cache check in `loadRainfall` / `loadCarparks`: if both
keys exist and `now - cachedTime < ttlMs`, return the cached payload and
leave the store untouched; otherwise use the freshly fetched data and
restamp the store with it at time `now`. -/
def loadWithCache {α : Type} (ttlMs : ℤ) (st : CacheState α) (now : ℤ)
    (fetched : α) : α × CacheState α :=
  match st.payload, st.time with
  | some p, some t =>
    if now - t < ttlMs then (p, st)
    else (fetched, ⟨some fetched, some now⟩)
  | _, _ => (fetched, ⟨some fetched, some now⟩)

/-- rainfall.ts line 171: cache valid for 10 minutes (600000 ms). -/
def rainfallCacheTtlMs : ℤ := 600000

/-- carpark.ts line 160: carpark cache valid for 1 hour (3600000 ms). -/
def carparkCacheTtlMs : ℤ := 3600000

/-- The cache step of `useRainfallNowcast`. -/
def loadRainfallCached {α : Type} : CacheState α → ℤ → α → α × CacheState α :=
  loadWithCache rainfallCacheTtlMs

/-- The cache step of `useCarparks`. -/
def loadCarparksCached {α : Type} : CacheState α → ℤ → α → α × CacheState α :=
  loadWithCache carparkCacheTtlMs

/-! ## Haversine distance over ℝ (`calculateDistance`)

`calculateDistance(lat1, lng1, lat2, lng2)` computes
`a = sin²(dLat/2) + cos(lat1°)·cos(lat2°)·sin²(dLng/2)` and returns
`R * 2 * atan2(sqrt(a), sqrt(1-a))` with `R = 6371` km. -/

namespace Geo

/-- JavaScript `Math.atan2 y x` (ignoring signed zeros, which the source
never distinguishes). -/
noncomputable def atan2 (y x : ℝ) : ℝ :=
  if 0 < x then Real.arctan (y / x)
  else if x < 0 then
    if 0 ≤ y then Real.arctan (y / x) + Real.pi
    else Real.arctan (y / x) - Real.pi
  else
    if 0 < y then Real.pi / 2
    else if y < 0 then -(Real.pi / 2)
    else 0

/-- The intermediate value `a` of `calculateDistance`:
`Math.sin(dLat/2) * Math.sin(dLat/2) + Math.cos(lat1·π/180) *
Math.cos(lat2·π/180) * Math.sin(dLng/2) * Math.sin(dLng/2)` with
`dLat = (lat2-lat1)·π/180`, `dLng = (lng2-lng1)·π/180`. -/
noncomputable def hvA (lat1 lng1 lat2 lng2 : ℝ) : ℝ :=
  Real.sin ((lat2 - lat1) * Real.pi / 180 / 2) *
      Real.sin ((lat2 - lat1) * Real.pi / 180 / 2) +
    Real.cos (lat1 * Real.pi / 180) * Real.cos (lat2 * Real.pi / 180) *
      Real.sin ((lng2 - lng1) * Real.pi / 180 / 2) *
      Real.sin ((lng2 - lng1) * Real.pi / 180 / 2)

/-- `calculateDistance` of carpark.ts lines 48-58 (identical in
rainfall.ts lines 57-67 and MapInner.tsx lines 77-87):
`c = 2 * Math.atan2(Math.sqrt(a), Math.sqrt(1-a)); return R * c` with
`R = 6371`.  No input validation of any kind is performed. -/
noncomputable def calculateDistance (lat1 lng1 lat2 lng2 : ℝ) : ℝ :=
  6371 * (2 * atan2 (Real.sqrt (hvA lat1 lng1 lat2 lng2))
    (Real.sqrt (1 - hvA lat1 lng1 lat2 lng2)))

theorem hvA_symm (lat1 lng1 lat2 lng2 : ℝ) :
    hvA lat2 lng2 lat1 lng1 = hvA lat1 lng1 lat2 lng2 := by
  unfold hvA
  have h1 : (lat1 - lat2) * Real.pi / 180 / 2 =
      -((lat2 - lat1) * Real.pi / 180 / 2) := by ring
  have h2 : (lng1 - lng2) * Real.pi / 180 / 2 =
      -((lng2 - lng1) * Real.pi / 180 / 2) := by ring
  rw [h1, h2, Real.sin_neg, Real.sin_neg]
  ring

theorem hvA_self (lat lng : ℝ) : hvA lat lng lat lng = 0 := by
  unfold hvA
  have h1 : (lat - lat) * Real.pi / 180 / 2 = 0 := by ring
  have h2 : (lng - lng) * Real.pi / 180 / 2 = 0 := by ring
  rw [h1, h2, Real.sin_zero]
  ring

theorem arctan_nonneg_of_nonneg (x : ℝ) (hx : 0 ≤ x) : 0 ≤ Real.arctan x := by
  have := Real.arctan_strictMono.monotone hx
  simpa [Real.arctan_zero] using this

theorem atan2_nonneg (y x : ℝ) (hy : 0 ≤ y) : 0 ≤ atan2 y x := by
  unfold atan2
  by_cases hx : 0 < x
  · rw [if_pos hx]
    exact arctan_nonneg_of_nonneg _ (div_nonneg hy hx.le)
  · rw [if_neg hx]
    by_cases hx2 : x < 0
    · rw [if_pos hx2, if_pos hy]
      have h1 := Real.neg_pi_div_two_lt_arctan (y / x)
      have h2 := Real.pi_pos
      linarith
    · rw [if_neg hx2]
      by_cases hy2 : 0 < y
      · rw [if_pos hy2]
        have := Real.pi_pos
        linarith
      · rw [if_neg hy2, if_neg (not_lt.mpr hy)]

theorem atan2_zero_one : atan2 0 1 = 0 := by
  unfold atan2
  rw [if_pos one_pos, zero_div, Real.arctan_zero]

theorem calculateDistance_symm (lat1 lng1 lat2 lng2 : ℝ) :
    calculateDistance lat1 lng1 lat2 lng2 =
      calculateDistance lat2 lng2 lat1 lng1 := by
  unfold calculateDistance
  rw [hvA_symm]

theorem calculateDistance_self (lat lng : ℝ) :
    calculateDistance lat lng lat lng = 0 := by
  unfold calculateDistance
  rw [hvA_self]
  rw [show (1 : ℝ) - 0 = 1 by ring, Real.sqrt_zero, Real.sqrt_one,
    atan2_zero_one]
  ring

theorem calculateDistance_nonneg (lat1 lng1 lat2 lng2 : ℝ) :
    0 ≤ calculateDistance lat1 lng1 lat2 lng2 := by
  unfold calculateDistance
  have h := atan2_nonneg (Real.sqrt (hvA lat1 lng1 lat2 lng2))
    (Real.sqrt (1 - hvA lat1 lng1 lat2 lng2))
    (Real.sqrt_nonneg _)
  linarith

end Geo

/-! ## Rainfall nowcast lookup (`src/lib/rainfall.ts`)

`getRainfallAtLocation(gridPoints, lat, lng)` returns `null` for an empty
grid and otherwise scans all grid points, keeping the first point whose
distance is strictly smaller than the running minimum.  It applies no
maximum-distance threshold and returns the grid point itself (no distance
field is attached). -/

namespace Rainfall

/-- A parsed row of the HKO gridded rainfall CSV (rainfall.ts lines 3-9). -/
structure RainfallGridPoint where
  startTime : String
  endTime : String
  lat : ℚ
  lng : ℚ
  rainfall : ℚ
deriving DecidableEq

/-- The body of the `for (const point of gridPoints)` loop in
`getRainfallAtLocation` (rainfall.ts lines 80-86): replace the running
`(nearest, minDistance)` pair when the new distance is strictly smaller. -/
def nearestStep (d : ℚ → ℚ → ℚ → ℚ → ℚ) (lat lng : ℚ)
    (acc : RainfallGridPoint × ℚ) (point : RainfallGridPoint) :
    RainfallGridPoint × ℚ :=
  if d lat lng point.lat point.lng < acc.2 then
    (point, d lat lng point.lat point.lng)
  else acc

/-- `getRainfallAtLocation` (rainfall.ts lines 70-89), with the float
distance function abstracted as `d`.  The loop starts from
`nearest = gridPoints[0]` and visits every grid point. -/
def getRainfallAtLocation (d : ℚ → ℚ → ℚ → ℚ → ℚ)
    (gridPoints : List RainfallGridPoint) (lat lng : ℚ) :
    Option RainfallGridPoint :=
  match gridPoints with
  | [] => none
  | g0 :: _ =>
    some (gridPoints.foldl (nearestStep d lat lng)
      (g0, d lat lng g0.lat g0.lng)).1

theorem nearestFold_spec (d : ℚ → ℚ → ℚ → ℚ → ℚ) (lat lng : ℚ)
    (l : List RainfallGridPoint) :
    ∀ b : RainfallGridPoint × ℚ,
      (l.foldl (nearestStep d lat lng) b = b ∨
        ((l.foldl (nearestStep d lat lng) b).1 ∈ l ∧
          (l.foldl (nearestStep d lat lng) b).2 =
            d lat lng (l.foldl (nearestStep d lat lng) b).1.lat
              (l.foldl (nearestStep d lat lng) b).1.lng)) ∧
      (l.foldl (nearestStep d lat lng) b).2 ≤ b.2 ∧
      ∀ p ∈ l, (l.foldl (nearestStep d lat lng) b).2 ≤ d lat lng p.lat p.lng := by
  induction l with
  | nil =>
    intro b
    exact ⟨Or.inl rfl, le_refl _, by intro p hp; cases hp⟩
  | cons p t ih =>
    intro b
    rw [List.foldl_cons]
    obtain ⟨h1, h2, h3⟩ := ih (nearestStep d lat lng b p)
    by_cases hlt : d lat lng p.lat p.lng < b.2
    · have hstep : nearestStep d lat lng b p = (p, d lat lng p.lat p.lng) := by
        simp [nearestStep, hlt]
      rw [hstep] at h1 h2 h3 ⊢
      refine ⟨?_, le_trans h2 hlt.le, ?_⟩
      · rcases h1 with h | ⟨hm, he⟩
        · right
          rw [h]
          exact ⟨List.mem_cons_self p t, rfl⟩
        · exact Or.inr ⟨List.mem_cons_of_mem p hm, he⟩
      · intro q hq
        rcases List.mem_cons.mp hq with rfl | hq'
        · exact h2
        · exact h3 q hq'
    · have hstep : nearestStep d lat lng b p = b := by
        simp [nearestStep, hlt]
      rw [hstep] at h1 h2 h3 ⊢
      refine ⟨?_, h2, ?_⟩
      · rcases h1 with h | ⟨hm, he⟩
        · exact Or.inl h
        · exact Or.inr ⟨List.mem_cons_of_mem p hm, he⟩
      · intro q hq
        rcases List.mem_cons.mp hq with rfl | hq'
        · exact le_trans h2 (not_lt.mp hlt)
        · exact h3 q hq'

theorem getRainfallAtLocation_eq_none_iff (d : ℚ → ℚ → ℚ → ℚ → ℚ)
    (gps : List RainfallGridPoint) (lat lng : ℚ) :
    getRainfallAtLocation d gps lat lng = none ↔ gps = [] := by
  cases gps <;> simp [getRainfallAtLocation]

theorem getRainfallAtLocation_min (d : ℚ → ℚ → ℚ → ℚ → ℚ)
    (gps : List RainfallGridPoint) (lat lng : ℚ) (r : RainfallGridPoint)
    (h : getRainfallAtLocation d gps lat lng = some r) :
    r ∈ gps ∧ ∀ p ∈ gps, d lat lng r.lat r.lng ≤ d lat lng p.lat p.lng := by
  cases gps with
  | nil => simp [getRainfallAtLocation] at h
  | cons g0 t =>
    obtain ⟨h1, h2, h3⟩ :=
      nearestFold_spec d lat lng (g0 :: t) (g0, d lat lng g0.lat g0.lng)
    have hr : r = ((g0 :: t).foldl (nearestStep d lat lng)
        (g0, d lat lng g0.lat g0.lng)).1 := by
      simpa [getRainfallAtLocation] using h.symm
    have hmem_dist :
        ((g0 :: t).foldl (nearestStep d lat lng) (g0, d lat lng g0.lat g0.lng)).1 ∈ g0 :: t ∧
        ((g0 :: t).foldl (nearestStep d lat lng) (g0, d lat lng g0.lat g0.lng)).2 =
          d lat lng ((g0 :: t).foldl (nearestStep d lat lng) (g0, d lat lng g0.lat g0.lng)).1.lat
            ((g0 :: t).foldl (nearestStep d lat lng) (g0, d lat lng g0.lat g0.lng)).1.lng := by
      rcases h1 with heq | hin
      · rw [heq]
        exact ⟨List.mem_cons_self g0 t, rfl⟩
      · exact hin
    subst hr
    refine ⟨hmem_dist.1, ?_⟩
    intro p hp
    rw [← hmem_dist.2]
    exact h3 p hp

end Rainfall

/-! ## Nearby carparks (`src/lib/carpark.ts` and `CarparkList`)

`getNearbyCarparks(carparks, centerLat, centerLng, radiusKm)` decorates
every carpark with its distance to the center, keeps those with
`distance <= radiusKm`, and sorts ascending by distance with the stable
comparator `(a, b) => a.distance - b.distance`.  The `CarparkList`
component then shows `getNearbyCarparks(...).slice(0, maxResults)` with
`maxResults = 5` by default. -/

namespace CarparkLib

/-- The fields of a carpark record that the radius filter reads
(carpark.ts lines 3-22; the remaining fields are display-only strings and
do not influence any claim). -/
structure Carpark where
  park_Id : String
  name : String
  latitude : ℚ
  longitude : ℚ
deriving DecidableEq

/-- A carpark decorated with its computed distance (carpark.ts lines 24-28;
the derived display strings `distanceDisplay`/`walkingTime` are pure
formatting of `distance` and are omitted). -/
structure CarparkWithDistance extends Carpark where
  distance : ℚ
deriving DecidableEq

/-- The `.map` step of `getNearbyCarparks`: spread the record and attach
the computed distance. -/
def decorateCarpark (d : ℚ → ℚ → ℚ → ℚ → ℚ) (centerLat centerLng : ℚ)
    (carpark : Carpark) : CarparkWithDistance :=
  { toCarpark := carpark
    distance := d centerLat centerLng carpark.latitude carpark.longitude }

/-- The `.map ... .filter` prefix of `getNearbyCarparks`
(carpark.ts lines 99-114): decorate, then keep `c.distance <= radiusKm`. -/
def carparksWithinRadius (d : ℚ → ℚ → ℚ → ℚ → ℚ) (carparks : List Carpark)
    (centerLat centerLng radiusKm : ℚ) : List CarparkWithDistance :=
  (carparks.map (decorateCarpark d centerLat centerLng)).filter
    (fun c => decide (c.distance ≤ radiusKm))

/-- The comparator `(a, b) => a.distance - b.distance` of
`getNearbyCarparks`, as the boolean relation of the stable sort. -/
def carparkSortLE (a b : CarparkWithDistance) : Bool :=
  decide (a.distance ≤ b.distance)

/-- `getNearbyCarparks` (carpark.ts lines 93-116), distance function
abstracted as `d`. -/
def getNearbyCarparks (d : ℚ → ℚ → ℚ → ℚ → ℚ) (carparks : List Carpark)
    (centerLat centerLng radiusKm : ℚ) : List CarparkWithDistance :=
  (carparksWithinRadius d carparks centerLat centerLng radiusKm).mergeSort
    carparkSortLE

/-- The `CarparkList` component's
`getNearbyCarparks(carparks, placeLat, placeLng, radiusKm).slice(0, maxResults)`
(CarparkList.tsx lines 27-29; the caller defaults are `radiusKm = 1`,
`maxResults = 5`). -/
def nearbyCarparks (d : ℚ → ℚ → ℚ → ℚ → ℚ) (carparks : List Carpark)
    (placeLat placeLng radiusKm : ℚ) (maxResults : ℕ) :
    List CarparkWithDistance :=
  (getNearbyCarparks d carparks placeLat placeLng radiusKm).take maxResults

theorem carparkSortLE_trans (a b c : CarparkWithDistance)
    (hab : carparkSortLE a b) (hbc : carparkSortLE b c) : carparkSortLE a c := by
  simp only [carparkSortLE, decide_eq_true_eq] at *
  exact le_trans hab hbc

theorem carparkSortLE_total (a b : CarparkWithDistance) :
    carparkSortLE a b || carparkSortLE b a := by
  simp only [carparkSortLE, Bool.or_eq_true, decide_eq_true_eq]
  exact le_total a.distance b.distance

theorem mem_carparksWithinRadius (d : ℚ → ℚ → ℚ → ℚ → ℚ)
    (carparks : List Carpark) (centerLat centerLng radiusKm : ℚ)
    (c : CarparkWithDistance) :
    c ∈ carparksWithinRadius d carparks centerLat centerLng radiusKm ↔
      ∃ cp ∈ carparks, c = decorateCarpark d centerLat centerLng cp ∧
        d centerLat centerLng cp.latitude cp.longitude ≤ radiusKm := by
  unfold carparksWithinRadius
  rw [List.mem_filter, List.mem_map]
  constructor
  · rintro ⟨⟨cp, hcp, rfl⟩, hle⟩
    refine ⟨cp, hcp, rfl, ?_⟩
    simpa [decorateCarpark] using hle
  · rintro ⟨cp, hcp, rfl, hle⟩
    exact ⟨⟨cp, hcp, rfl⟩, by simpa [decorateCarpark] using hle⟩

theorem mem_getNearbyCarparks (d : ℚ → ℚ → ℚ → ℚ → ℚ)
    (carparks : List Carpark) (centerLat centerLng radiusKm : ℚ)
    (c : CarparkWithDistance) :
    c ∈ getNearbyCarparks d carparks centerLat centerLng radiusKm ↔
      c ∈ carparksWithinRadius d carparks centerLat centerLng radiusKm := by
  unfold getNearbyCarparks
  exact List.mem_mergeSort

theorem getNearbyCarparks_sorted (d : ℚ → ℚ → ℚ → ℚ → ℚ)
    (carparks : List Carpark) (centerLat centerLng radiusKm : ℚ) :
    (getNearbyCarparks d carparks centerLat centerLng radiusKm).Pairwise
      (fun a b => a.distance ≤ b.distance) := by
  have h := List.sorted_mergeSort carparkSortLE_trans carparkSortLE_total
    (carparksWithinRadius d carparks centerLat centerLng radiusKm)
  exact h.imp (fun hab => by
    simpa [carparkSortLE, decide_eq_true_eq] using hab)

theorem getNearbyCarparks_stable (d : ℚ → ℚ → ℚ → ℚ → ℚ)
    (carparks : List Carpark) (centerLat centerLng radiusKm : ℚ)
    (a b : CarparkWithDistance) (hab : a.distance = b.distance)
    (hsub : List.Sublist [a, b]
      (carparksWithinRadius d carparks centerLat centerLng radiusKm)) :
    List.Sublist [a, b]
      (getNearbyCarparks d carparks centerLat centerLng radiusKm) := by
  unfold getNearbyCarparks
  refine List.sublist_mergeSort carparkSortLE_trans carparkSortLE_total ?_ hsub
  simp [List.pairwise_cons, carparkSortLE, hab, le_refl]

end CarparkLib

/-! ## Map viewport filter (`useFilteredPlaces` in `src/components/MapInner.tsx`)

Below `MIN_ZOOM_FOR_PINS` only the selected place (if any) is shown.  At or
above it, every place is decorated with its distance to the map center and
an `isSelected` flag, filtered to `isSelected || distance <= SHOW_RADIUS_KM`,
sorted selected-first then by ascending distance (stable), and capped at
`MAX_PLACES_ON_MAP`. -/

namespace MapInner

/-- The `Place` interface of MapInner.tsx lines 8-15. -/
structure Place where
  id : String
  name : String
  lat : ℚ
  lng : ℚ
  category : String
  district : String
deriving DecidableEq

/-- MapInner.tsx line 28: minimum zoom level to show pins. -/
def MIN_ZOOM_FOR_PINS : ℚ := 13

/-- MapInner.tsx line 30: radius in km to show pins when zoomed in. -/
def SHOW_RADIUS_KM : ℚ := 4

/-- MapInner.tsx line 32: maximum number of places to show on map. -/
def MAX_PLACES_ON_MAP : ℕ := 50

/-- An element of the `placesWithDistance` intermediate array
(MapInner.tsx lines 141-146): `{ place, distance, isSelected }`. -/
structure MapEntry where
  place : Place
  distance : ℚ
  isSelected : Bool
deriving DecidableEq

/-- The `.map` step of `useFilteredPlaces`: attach the distance to the
reference point and the `place.id === selectedPlaceId` flag. -/
def decorateMapPlace (d : ℚ → ℚ → ℚ → ℚ → ℚ) (center : ℚ × ℚ)
    (selectedPlaceId : Option String) (place : Place) : MapEntry :=
  ⟨place, d center.1 center.2 place.lat place.lng,
    selectedPlaceId == some place.id⟩

/-- The `.map ... .filter` prefix of the high-zoom branch
(MapInner.tsx lines 141-147): keep an entry iff it is selected or
(recomputing the distance, as the source does) lies within
`SHOW_RADIUS_KM` of the reference point. -/
def placesWithDistance (d : ℚ → ℚ → ℚ → ℚ → ℚ) (center : ℚ × ℚ)
    (selectedPlaceId : Option String) (places : List Place) : List MapEntry :=
  (places.map (decorateMapPlace d center selectedPlaceId)).filter
    (fun e => e.isSelected ||
      decide (d center.1 center.2 e.place.lat e.place.lng ≤ SHOW_RADIUS_KM))

/-- The sort comparator of MapInner.tsx lines 148-154 (selected first,
then ascending distance), as the boolean relation of the stable sort:
`compare(a,b) <= 0`. -/
def mapSortLE (a b : MapEntry) : Bool :=
  (a.isSelected && !b.isSelected) ||
    ((a.isSelected == b.isSelected) && decide (a.distance ≤ b.distance))

/-- `selectedPlaceId ? places.find(p => p.id === selectedPlaceId) : null`
(MapInner.tsx line 129), including the empty-string falsiness of the
ternary condition. -/
def selectedPlaceOf (places : List Place) (selectedPlaceId : Option String) :
    Option Place :=
  match selectedPlaceId with
  | some sid => if sid = "" then none else places.find? (fun p => p.id == sid)
  | none => none

/-- `useFilteredPlaces` (MapInner.tsx lines 116-166): returns the filtered
place list and the `shouldShowZoomHint` flag. -/
def useFilteredPlaces (d : ℚ → ℚ → ℚ → ℚ → ℚ) (places : List Place)
    (mapCenter : ℚ × ℚ) (zoom : ℚ) (selectedPlaceId : Option String) :
    List Place × Bool :=
  if zoom < MIN_ZOOM_FOR_PINS then
    (match selectedPlaceOf places selectedPlaceId with
      | some p => [p]
      | none => [],
      (selectedPlaceOf places selectedPlaceId).isNone ||
        decide (places.length > 1))
  else
    ((((placesWithDistance d mapCenter selectedPlaceId places).mergeSort
        mapSortLE).take MAX_PLACES_ON_MAP).map (fun e => e.place),
      false)

theorem mapSortLE_trans (a b c : MapEntry) (hab : mapSortLE a b = true)
    (hbc : mapSortLE b c = true) : mapSortLE a c = true := by
  unfold mapSortLE at *
  cases ha : a.isSelected <;> cases hb : b.isSelected <;>
    cases hc : c.isSelected <;> simp_all [decide_eq_true_eq] <;>
    exact le_trans hab hbc

theorem mapSortLE_total (a b : MapEntry) :
    mapSortLE a b || mapSortLE b a := by
  unfold mapSortLE
  cases ha : a.isSelected <;> cases hb : b.isSelected <;>
    simp_all [decide_eq_true_eq] <;> exact le_total _ _

theorem mem_placesWithDistance (d : ℚ → ℚ → ℚ → ℚ → ℚ) (center : ℚ × ℚ)
    (sel : Option String) (places : List Place) (e : MapEntry) :
    e ∈ placesWithDistance d center sel places ↔
      e.place ∈ places ∧ e = decorateMapPlace d center sel e.place ∧
        (e.isSelected = true ∨
          d center.1 center.2 e.place.lat e.place.lng ≤ SHOW_RADIUS_KM) := by
  unfold placesWithDistance
  rw [List.mem_filter, List.mem_map]
  constructor
  · rintro ⟨⟨p, hp, rfl⟩, hpred⟩
    refine ⟨hp, rfl, ?_⟩
    simpa [Bool.or_eq_true, decide_eq_true_eq] using hpred
  · rintro ⟨hp, he, hpred⟩
    refine ⟨⟨e.place, hp, he.symm⟩, ?_⟩
    simpa [Bool.or_eq_true, decide_eq_true_eq] using hpred

theorem decorateMapPlace_injective (d : ℚ → ℚ → ℚ → ℚ → ℚ) (center : ℚ × ℚ)
    (sel : Option String) :
    Function.Injective (decorateMapPlace d center sel) := by
  intro p q h
  exact congrArg MapEntry.place h

theorem placesWithDistance_nodup (d : ℚ → ℚ → ℚ → ℚ → ℚ) (center : ℚ × ℚ)
    (sel : Option String) (places : List Place) (hnd : places.Nodup) :
    (placesWithDistance d center sel places).Nodup :=
  (hnd.map (decorateMapPlace_injective d center sel)).filter _

theorem selected_entry_unique (d : ℚ → ℚ → ℚ → ℚ → ℚ) (center : ℚ × ℚ)
    (places : List Place) (sid : String) (p : Place)
    (huniq : ∀ q ∈ places, q.id = sid → q = p) (e : MapEntry)
    (he : e ∈ placesWithDistance d center (some sid) places)
    (hsel : e.isSelected = true) :
    e = decorateMapPlace d center (some sid) p := by
  obtain ⟨hmem, heq, -⟩ := (mem_placesWithDistance d center (some sid) places e).mp he
  have hid : sid = e.place.id := by
    have : (some sid == some e.place.id) = true := by
      have := congrArg MapEntry.isSelected heq
      simpa [decorateMapPlace, hsel] using this.symm
    simpa using this
  have : e.place = p := huniq e.place hmem hid.symm
  rw [heq, this]

theorem selectedPlaceOf_eq_some (places : List Place) (sid : String) (p : Place)
    (hsid : sid ≠ "") (hp : p ∈ places) (hpid : p.id = sid)
    (huniq : ∀ q ∈ places, q.id = sid → q = p) :
    selectedPlaceOf places (some sid) = some p := by
  have hred : selectedPlaceOf places (some sid) =
      if sid = "" then none else places.find? (fun q => q.id == sid) := rfl
  rw [hred, if_neg hsid]
  cases hf : places.find? (fun q => q.id == sid) with
  | none =>
    exfalso
    have := List.find?_eq_none.mp hf p hp
    simp [hpid] at this
  | some q =>
    have hq1 : q.id = sid := by
      have := List.find?_some hf
      simpa using this
    have hq2 : q ∈ places := List.mem_of_find?_eq_some hf
    rw [huniq q hq2 hq1]

theorem sorted_head_selected (d : ℚ → ℚ → ℚ → ℚ → ℚ) (center : ℚ × ℚ)
    (places : List Place) (sid : String) (p : Place) (hnd : places.Nodup)
    (hp : p ∈ places) (hpid : p.id = sid)
    (huniq : ∀ q ∈ places, q.id = sid → q = p) :
    ∃ t, (placesWithDistance d center (some sid) places).mergeSort mapSortLE =
        decorateMapPlace d center (some sid) p :: t ∧
      decorateMapPlace d center (some sid) p ∉ t := by
  have hselP : (decorateMapPlace d center (some sid) p).isSelected = true := by
    simp [decorateMapPlace, hpid]
  have hmemP : decorateMapPlace d center (some sid) p ∈
      placesWithDistance d center (some sid) places := by
    rw [mem_placesWithDistance]
    exact ⟨hp, rfl, Or.inl hselP⟩
  have hmemS : decorateMapPlace d center (some sid) p ∈
      (placesWithDistance d center (some sid) places).mergeSort mapSortLE :=
    List.mem_mergeSort.mpr hmemP
  have hpw := List.sorted_mergeSort mapSortLE_trans mapSortLE_total
    (placesWithDistance d center (some sid) places)
  have hndS : ((placesWithDistance d center (some sid) places).mergeSort
      mapSortLE).Nodup :=
    ((List.mergeSort_perm _ _).nodup_iff).mpr
      (placesWithDistance_nodup d center (some sid) places hnd)
  cases hS : (placesWithDistance d center (some sid) places).mergeSort mapSortLE with
  | nil =>
    rw [hS] at hmemS
    cases hmemS
  | cons h t =>
    rw [hS] at hmemS hpw hndS
    by_cases hhe : h = decorateMapPlace d center (some sid) p
    · subst hhe
      exact ⟨t, rfl, (List.nodup_cons.mp hndS).1⟩
    · exfalso
      have hht : h ∈ placesWithDistance d center (some sid) places := by
        have : h ∈ (placesWithDistance d center (some sid) places).mergeSort
            mapSortLE := by
          rw [hS]
          exact List.mem_cons_self h t
        exact List.mem_mergeSort.mp this
      have hhsel : h.isSelected = false := by
        cases hsel : h.isSelected with
        | false => rfl
        | true =>
          exact absurd (selected_entry_unique d center places sid p huniq h hht hsel) hhe
      have hePt : decorateMapPlace d center (some sid) p ∈ t := by
        rcases List.mem_cons.mp hmemS with h1 | h2
        · exact absurd h1.symm hhe
        · exact h2
      have hle : mapSortLE h (decorateMapPlace d center (some sid) p) = true :=
        (List.pairwise_cons.mp hpw).1 _ hePt
      simp [mapSortLE, hhsel, hselP] at hle

end MapInner


/-! ## Main page filter (`filteredPlaces` in `src/app/page.tsx`)

`filteredPlaces` filters the static place list with, in order: a 4 km
radius cull around the list reference center, free-text search,
favorites-only, regions, categories, indoor/outdoor, age-range overlap and
price tier; the survivors are then sorted by the selected sort mode.
JavaScript string primitives (`includes`, `toLowerCase`, `split("-")`,
`parseInt`) are modelled on character lists; an `undefined`/`NaN` operand
of a comparison is modelled by `none` (every JS comparison against `NaN`
or `undefined` is false, and both are falsy). -/

namespace Page

/-- The first list starts the second one (helper for `String.includes`). -/
def leadsWith : List Char → List Char → Bool
  | [], _ => true
  | _ :: _, [] => false
  | a :: as, b :: bs => a == b && leadsWith as bs

/-- `needle` occurs somewhere inside the haystack. -/
def includesAux (needle : List Char) : List Char → Bool
  | [] => needle.isEmpty
  | c :: rest => leadsWith needle (c :: rest) || includesAux needle rest

/-- JavaScript `s.includes(sub)`. -/
def strIncludes (s sub : String) : Bool := includesAux sub.data s.data

/-- JavaScript `s.toLowerCase()` (ASCII range; the source only lowercases
ASCII names and queries, CJK text is unaffected by either function). -/
def jsToLower (s : String) : String := s.map Char.toLower

/-- JavaScript `s.split("-")` on character lists. -/
def splitDash : List Char → List (List Char)
  | [] => [[]]
  | c :: cs =>
    match splitDash cs with
    | [] => [[]]
    | h :: t => if c = '-' then [] :: h :: t else (c :: h) :: t

/-- JavaScript `parseInt` restricted to the digit-prefix case the age
buckets exercise: the longest digit prefix as an integer, `none` for `NaN`
(no leading digits). -/
def jsParseIntDigits (cs : List Char) : Option ℤ :=
  if (cs.takeWhile (fun c => c.isDigit)).isEmpty then none
  else
    some ((cs.takeWhile (fun c => c.isDigit)).foldl
      (fun n c => n * 10 + ((c.toNat : ℤ) - 48)) 0)

/-- One token of `ageFilter.split("-")` through
`a === "12+" ? 12 : parseInt(a)` (page.tsx lines 245-247). -/
def parseAgeToken (cs : List Char) : Option ℤ :=
  if cs = ['1', '2', '+'] then some 12 else jsParseIntDigits cs

/-- The destructured `[minAge, maxAge]` array of page.tsx line 245. -/
def bucketTokens (s : String) : List (Option ℤ) :=
  (splitDash s.data).map parseAgeToken

/-- `minAge` of an age bucket string. -/
def bucketLo (s : String) : Option ℤ := (bucketTokens s).getD 0 none

/-- `maxAge` of an age bucket string (`none` when the split produced a
single token, i.e. JS `undefined`, or the token parsed to `NaN`). -/
def bucketHi (s : String) : Option ℤ := (bucketTokens s).getD 1 none

/-- JS `<` where either side may be `NaN`/`undefined` (then false). -/
def jsltO : Option ℤ → Option ℤ → Bool
  | some a, some b => decide (a < b)
  | _, _ => false

/-- JS `<=` where either side may be `NaN`/`undefined` (then false). -/
def jsleO : Option ℤ → Option ℤ → Bool
  | some a, some b => decide (a ≤ b)
  | _, _ => false

/-- JS truthiness of a number that may be `NaN`/`undefined`. -/
def optTruthy : Option ℤ → Bool
  | none => false
  | some v => v != 0

/-- The body of `filters.ages.some(...)` (page.tsx lines 244-251): with a
truthy `maxAge`, the interval-overlap test
`!(ageRange[1] < minAge || ageRange[0] > maxAge)`; otherwise the
containment test `ageRange[0] <= minAge && ageRange[1] >= minAge`. -/
def ageMatches (ageRange : List ℤ) (ageFilter : String) : Bool :=
  if optTruthy (bucketHi ageFilter) then
    !(jsltO (ageRange.get? 1) (bucketLo ageFilter) ||
      jsltO (bucketHi ageFilter) (ageRange.get? 0))
  else
    jsleO (ageRange.get? 0) (bucketLo ageFilter) &&
      jsleO (bucketLo ageFilter) (ageRange.get? 1)

/-- The age predicate group (page.tsx lines 242-254): no constraint when
`filters.ages` is empty, otherwise some bucket must match. -/
def agesPass (ages : List String) (ageRange : List ℤ) : Bool :=
  ages.isEmpty || ages.any (fun ageFilter => ageMatches ageRange ageFilter)

/-- The fields of a place record that `filteredPlaces` reads
(page.tsx lines 21-41; presentation-only fields omitted). -/
structure PagePlace where
  id : String
  name : String
  district : String
  region : String
  lat : ℚ
  lng : ℚ
  category : String
  indoor : Bool
  ageRange : List ℤ
  priceType : String
deriving DecidableEq

/-- The `filters` state object of page.tsx lines 65-71. -/
structure PageFilters where
  regions : List String
  categories : List String
  ages : List String
  prices : List String
  indoor : String
deriving DecidableEq

/-- The `categoryLabels` record of page.tsx lines 43-49 (a JS record
lookup returning `undefined` for other keys). -/
def categoryLabels (category : String) : Option String :=
  if category = "playhouse" then some "🎪 遊樂場"
  else if category = "park" then some "🌳 公園"
  else if category = "museum" then some "🏛️ 博物館"
  else if category = "restaurant" then some "🍽️ 親子餐廳"
  else if category = "library" then some "📚 圖書館"
  else none

/-- The free-text search group (page.tsx lines 222-229): vacuous for the
empty query, otherwise the lowercased query must occur in the name, the
district or the category label (missing label: `|| ""`). -/
def searchPass (searchQuery : String) (place : PagePlace) : Bool :=
  (searchQuery == "") ||
    (strIncludes (jsToLower place.name) (jsToLower searchQuery) ||
      strIncludes (jsToLower place.district) (jsToLower searchQuery) ||
      strIncludes (jsToLower ((categoryLabels place.category).getD ""))
        (jsToLower searchQuery))

/-- The favorites group (page.tsx line 232). -/
def favoritesPass (showFavoritesOnly : Bool) (favorites : List String)
    (place : PagePlace) : Bool :=
  !(showFavoritesOnly && !(favorites.contains place.id))

/-- The regions group (page.tsx lines 234-235): any accepted region must
occur as a substring of the district. -/
def regionsPass (regions : List String) (place : PagePlace) : Bool :=
  regions.isEmpty || regions.any (fun r => strIncludes place.district r)

/-- The categories group (page.tsx lines 236-237). -/
def categoriesPass (categories : List String) (place : PagePlace) : Bool :=
  categories.isEmpty || categories.contains place.category

/-- The indoor/outdoor ternary group (page.tsx lines 238-241). -/
def indoorPass (indoor : String) (place : PagePlace) : Bool :=
  !((indoor == "indoor") && !place.indoor) &&
    !((indoor == "outdoor") && place.indoor)

/-- The price-tier group (page.tsx lines 255-264): `"low"` accepts both
`free` and `low`, the other tiers are exact. -/
def pricesPass (prices : List String) (priceType : String) : Bool :=
  prices.isEmpty || prices.any (fun priceFilter =>
    if priceFilter == "free" then priceType == "free"
    else if priceFilter == "low" then
      (priceType == "free" || priceType == "low")
    else if priceFilter == "medium" then priceType == "medium"
    else if priceFilter == "high" then priceType == "high"
    else false)

/-- The whole filter predicate of page.tsx lines 217-266, with the radius
cull `if (distance > 4) return false` first (lines 218-220).  The
early-return chain is the conjunction of the groups in source order. -/
def placePasses (d : ℚ → ℚ → ℚ → ℚ → ℚ) (refLat refLng : ℚ)
    (searchQuery : String) (showFavoritesOnly : Bool)
    (favorites : List String) (filters : PageFilters)
    (place : PagePlace) : Bool :=
  !(decide (d refLat refLng place.lat place.lng > 4)) &&
    searchPass searchQuery place &&
    favoritesPass showFavoritesOnly favorites place &&
    regionsPass filters.regions place &&
    categoriesPass filters.categories place &&
    indoorPass filters.indoor place &&
    agesPass filters.ages place.ageRange &&
    pricesPass filters.prices place.priceType

/-- `priceOrder` of page.tsx lines 273-281 (places outside the data model
share rank 0, which no claim exercises). -/
def priceOrder (priceType : String) : ℤ :=
  if priceType = "free" then 0
  else if priceType = "low" then 1
  else if priceType = "medium" then 2
  else if priceType = "high" then 3
  else 0

/-- The sort comparator of page.tsx lines 267-283 as the boolean relation
of the stable sort (`default` compares everything equal, leaving the
filter order unchanged). -/
def pageSortLE (d : ℚ → ℚ → ℚ → ℚ → ℚ) (refLat refLng : ℚ)
    (sortBy : String) (a b : PagePlace) : Bool :=
  if sortBy = "distance" then
    decide (d refLat refLng a.lat a.lng ≤ d refLat refLng b.lat b.lng)
  else if sortBy = "priceLow" then
    decide (priceOrder a.priceType ≤ priceOrder b.priceType)
  else if sortBy = "priceHigh" then
    decide (priceOrder b.priceType ≤ priceOrder a.priceType)
  else true

/-- `filteredPlaces` of page.tsx lines 213-283: filter then stable sort. -/
def filteredPlaces (d : ℚ → ℚ → ℚ → ℚ → ℚ) (refLat refLng : ℚ)
    (searchQuery : String) (showFavoritesOnly : Bool)
    (favorites : List String) (filters : PageFilters) (sortBy : String)
    (places : List PagePlace) : List PagePlace :=
  (places.filter
    (placePasses d refLat refLng searchQuery showFavoritesOnly favorites
      filters)).mergeSort (pageSortLE d refLat refLng sortBy)

theorem placePasses_radius (d : ℚ → ℚ → ℚ → ℚ → ℚ) (refLat refLng : ℚ)
    (searchQuery : String) (showFavoritesOnly : Bool)
    (favorites : List String) (filters : PageFilters) (place : PagePlace)
    (h : placePasses d refLat refLng searchQuery showFavoritesOnly favorites
      filters place = true) :
    d refLat refLng place.lat place.lng ≤ 4 := by
  unfold placePasses at h
  simp only [Bool.and_eq_true, Bool.not_eq_true', decide_eq_false_iff_not,
    not_lt] at h
  exact h.1.1.1.1.1.1.1

theorem ageMatches_overlap_iff (a b lo hi : ℤ) (s : String)
    (hlo : bucketLo s = some lo) (hhi : bucketHi s = some hi)
    (hne : hi ≠ 0) :
    ageMatches [a, b] s = true ↔ ¬(b < lo ∨ a > hi) := by
  unfold ageMatches
  rw [hlo, hhi]
  have ht : optTruthy (some hi) = true := by simp [optTruthy, hne]
  rw [if_pos ht]
  simp [jsltO, gt_iff_lt]

theorem bucketHi_truthy_exists (s : String)
    (htr : optTruthy (bucketHi s) = true) :
    ∃ hi : ℤ, bucketHi s = some hi ∧ hi ≠ 0 := by
  cases hhi : bucketHi s with
  | none => rw [hhi] at htr; simp [optTruthy] at htr
  | some v =>
    refine ⟨v, rfl, ?_⟩
    rw [hhi] at htr
    simpa [optTruthy] using htr

theorem agesPass_iff (ages : List String) (a b : ℤ)
    (hwf : ∀ s ∈ ages, (bucketLo s).isSome ∧ optTruthy (bucketHi s) = true) :
    agesPass ages [a, b] = true ↔
      ages = [] ∨ ∃ s ∈ ages, ∃ lo hi : ℤ,
        bucketLo s = some lo ∧ bucketHi s = some hi ∧ ¬(b < lo ∨ a > hi) := by
  unfold agesPass
  rw [Bool.or_eq_true, List.any_eq_true]
  constructor
  · rintro (hemp | ⟨s, hs, hm⟩)
    · left
      exact List.isEmpty_iff.mp hemp
    · right
      obtain ⟨hloS, htr⟩ := hwf s hs
      obtain ⟨lo, hlo⟩ := Option.isSome_iff_exists.mp hloS
      obtain ⟨hi, hhi, hne⟩ := bucketHi_truthy_exists s htr
      exact ⟨s, hs, lo, hi, hlo, hhi,
        (ageMatches_overlap_iff a b lo hi s hlo hhi hne).mp hm⟩
  · rintro (rfl | ⟨s, hs, lo, hi, hlo, hhi, hov⟩)
    · left
      rfl
    · right
      obtain ⟨hi2, hhi2, hne2⟩ := bucketHi_truthy_exists s (hwf s hs).2
      have hsame : hi2 = hi := by
        rw [hhi] at hhi2
        exact (Option.some_injective ℤ hhi2).symm
      subst hsame
      exact ⟨s, hs, (ageMatches_overlap_iff a b lo hi2 s hlo hhi hne2).mpr hov⟩

end Page

/-! ## Concrete fixtures used by counterexamples and witnesses -/

/-- A distance function that returns 0 everywhere (a legal float
distance function for exercising the pipeline on concrete inputs). -/
def dZero : ℚ → ℚ → ℚ → ℚ → ℚ := fun _ _ _ _ => 0

/-- A distance function that returns 12 km everywhere (models a query
about 12 km away from every grid cell). -/
def dTwelve : ℚ → ℚ → ℚ → ℚ → ℚ := fun _ _ _ _ => 12

/-- A rainfall grid cell. -/
def gridCellA : Rainfall.RainfallGridPoint :=
  ⟨"202510110000", "202510110030", 22, 114, 3⟩

/-- Another rainfall grid cell. -/
def gridCellB : Rainfall.RainfallGridPoint :=
  ⟨"202510110100", "202510110130", 23, 115, 1⟩

/-- A carpark record with in-range coordinates. -/
def carparkA : CarparkLib.Carpark := ⟨"tdc-1", "Test Carpark", 22, 114⟩

/-- A carpark record whose latitude (200) and longitude (500) are outside
the valid ranges. -/
def badCarpark : CarparkLib.Carpark := ⟨"bad-1", "Out Of Range", 200, 500⟩

/-- A map place. -/
def mapPlaceA : MapInner.Place :=
  ⟨"p1", "Playroom Central", 22, 114, "playhouse", "Central"⟩

/-- Another map place. -/
def mapPlaceB : MapInner.Place :=
  ⟨"p2", "Shatin Park", 23, 115, "park", "Shatin"⟩

/-- A page place with age range [2, 4]. -/
def pagePlaceA : Page.PagePlace :=
  ⟨"pp1", "Sample Park", "Central", "HK Island", 22, 114, "park", false,
    [2, 4], "free"⟩

/-- The page filter state with every group empty (no constraint). -/
def emptyPageFilters : Page.PageFilters := ⟨[], [], [], [], "all"⟩

/-! ## Claim theorems -/

/-- C1, counterexample: the claim says the nearest-record lookup returns
none whenever the minimum distance from the query to every record exceeds
`maxDistanceKm`.  `getRainfallAtLocation` has no such threshold: with a
single grid cell 12 km away and a threshold of 1 km it still returns that
cell, not none. -/
theorem c1_counterexample :
    ¬ (∀ (d : ℚ → ℚ → ℚ → ℚ → ℚ) (gps : List Rainfall.RainfallGridPoint)
        (lat lng maxDistanceKm : ℚ),
        (∀ p ∈ gps, maxDistanceKm < d lat lng p.lat p.lng) →
        Rainfall.getRainfallAtLocation d gps lat lng = none) := by
  intro h
  have := h dTwelve [gridCellA] 30 120 1 (by decide)
  exact absurd this (by decide)

/-- C1, amended: `getRainfallAtLocation` returns none iff the record list
is empty; otherwise it returns a minimum-distance record — no
maximum-distance threshold is applied. -/
theorem c1_nearest_no_threshold (d : ℚ → ℚ → ℚ → ℚ → ℚ)
    (gps : List Rainfall.RainfallGridPoint) (lat lng : ℚ) :
    (Rainfall.getRainfallAtLocation d gps lat lng = none ↔ gps = []) ∧
    (∀ r, Rainfall.getRainfallAtLocation d gps lat lng = some r →
      r ∈ gps ∧ ∀ p ∈ gps, d lat lng r.lat r.lng ≤ d lat lng p.lat p.lng) :=
  ⟨Rainfall.getRainfallAtLocation_eq_none_iff d gps lat lng,
    fun r h => Rainfall.getRainfallAtLocation_min d gps lat lng r h⟩

/-- Witness for C1 at a concrete input. -/
theorem c1_witness :
    Rainfall.getRainfallAtLocation dTwelve [gridCellA] 30 120 = some gridCellA ∧
    gridCellA ∈ [gridCellA] ∧
    dTwelve 30 120 gridCellA.lat gridCellA.lng ≤
      dTwelve 30 120 gridCellA.lat gridCellA.lng := by
  have h : Rainfall.getRainfallAtLocation dTwelve [gridCellA] 30 120 =
      some gridCellA := by decide
  have h2 := (c1_nearest_no_threshold dTwelve [gridCellA] 30 120).2 gridCellA h
  exact ⟨h, h2.1, h2.2 gridCellA h2.1⟩

/-- C2: a record appears in `getNearbyCarparks` iff its distance to the
center is at most `radiusKm` (soundness and completeness), the output is
sorted ascending by distance with ties kept in input order (stability),
and the `CarparkList` caller's `.slice(0, maxResults)` truncates that
sorted order to the first `maxResults` entries. -/
theorem c2_getNearbyCarparks_spec (d : ℚ → ℚ → ℚ → ℚ → ℚ)
    (carparks : List CarparkLib.Carpark) (centerLat centerLng radiusKm : ℚ) :
    (∀ c ∈ CarparkLib.getNearbyCarparks d carparks centerLat centerLng radiusKm,
      c.toCarpark ∈ carparks ∧
      c.distance = d centerLat centerLng c.toCarpark.latitude
        c.toCarpark.longitude ∧
      c.distance ≤ radiusKm) ∧
    (∀ cp ∈ carparks,
      d centerLat centerLng cp.latitude cp.longitude ≤ radiusKm →
      CarparkLib.decorateCarpark d centerLat centerLng cp ∈
        CarparkLib.getNearbyCarparks d carparks centerLat centerLng radiusKm) ∧
    (CarparkLib.getNearbyCarparks d carparks centerLat centerLng
      radiusKm).Pairwise (fun a b => a.distance ≤ b.distance) ∧
    (∀ a b, a.distance = b.distance →
      List.Sublist [a, b]
        (CarparkLib.carparksWithinRadius d carparks centerLat centerLng radiusKm) →
      List.Sublist [a, b]
        (CarparkLib.getNearbyCarparks d carparks centerLat centerLng radiusKm)) ∧
    (∀ n, CarparkLib.nearbyCarparks d carparks centerLat centerLng radiusKm n =
      (CarparkLib.getNearbyCarparks d carparks centerLat centerLng
        radiusKm).take n) := by
  refine ⟨?_, ?_, ?_, ?_, ?_⟩
  · intro c hc
    rw [CarparkLib.mem_getNearbyCarparks, CarparkLib.mem_carparksWithinRadius] at hc
    obtain ⟨cp, hcp, rfl, hle⟩ := hc
    exact ⟨hcp, rfl, hle⟩
  · intro cp hcp hle
    rw [CarparkLib.mem_getNearbyCarparks, CarparkLib.mem_carparksWithinRadius]
    exact ⟨cp, hcp, rfl, hle⟩
  · exact CarparkLib.getNearbyCarparks_sorted d carparks centerLat centerLng radiusKm
  · intro a b hab hsub
    exact CarparkLib.getNearbyCarparks_stable d carparks centerLat centerLng
      radiusKm a b hab hsub
  · intro n
    rfl

/-- Witness for C2 at a concrete input. -/
theorem c2_witness :
    CarparkLib.decorateCarpark dZero 0 0 carparkA ∈
      CarparkLib.getNearbyCarparks dZero [carparkA] 0 0 1 ∧
    (CarparkLib.decorateCarpark dZero 0 0 carparkA).distance ≤ 1 := by
  have hm : carparkA ∈ [carparkA] := List.mem_singleton.mpr rfl
  have hle : dZero 0 0 carparkA.latitude carparkA.longitude ≤ 1 := by decide
  have h := (c2_getNearbyCarparks_spec dZero [carparkA] 0 0 1).2.1 carparkA hm hle
  exact ⟨h, ((c2_getNearbyCarparks_spec dZero [carparkA] 0 0 1).1 _ h).2.2⟩

/-- C3: in `useFilteredPlaces`, at zoom >= 13 the selected place is
included regardless of its distance and ordered first; every other output
entry is a place within `SHOW_RADIUS_KM` (4 km) of the map center and the
non-selected part is sorted by ascending distance; the output never
exceeds `MAX_PLACES_ON_MAP` (50) entries, and (when the candidate list
fits under the cap) contains every place within the radius.  At zoom < 13
the output is exactly the selected place, or empty when nothing is
selected. -/
theorem c3_useFilteredPlaces_spec (d : ℚ → ℚ → ℚ → ℚ → ℚ)
    (places : List MapInner.Place) (center : ℚ × ℚ) (zoom : ℚ)
    (sid : String) (p : MapInner.Place) (hnd : places.Nodup)
    (hsid : sid ≠ "") (hp : p ∈ places) (hpid : p.id = sid)
    (huniq : ∀ q ∈ places, q.id = sid → q = p) :
    (zoom < MapInner.MIN_ZOOM_FOR_PINS →
      (MapInner.useFilteredPlaces d places center zoom (some sid)).1 = [p] ∧
      (MapInner.useFilteredPlaces d places center zoom none).1 = []) ∧
    (¬ zoom < MapInner.MIN_ZOOM_FOR_PINS →
      (MapInner.useFilteredPlaces d places center zoom (some sid)).1.head? =
        some p ∧
      (MapInner.useFilteredPlaces d places center zoom (some sid)).1.length ≤
        MapInner.MAX_PLACES_ON_MAP ∧
      (∀ q ∈ (MapInner.useFilteredPlaces d places center zoom (some sid)).1,
        q ∈ places) ∧
      (∀ q ∈ (MapInner.useFilteredPlaces d places center zoom (some sid)).1,
        q ≠ p → d center.1 center.2 q.lat q.lng ≤ MapInner.SHOW_RADIUS_KM) ∧
      (MapInner.useFilteredPlaces d places center zoom
        (some sid)).1.tail.Pairwise
          (fun q1 q2 => d center.1 center.2 q1.lat q1.lng ≤
            d center.1 center.2 q2.lat q2.lng) ∧
      ((MapInner.placesWithDistance d center (some sid) places).length ≤
          MapInner.MAX_PLACES_ON_MAP →
        ∀ q ∈ places,
          d center.1 center.2 q.lat q.lng ≤ MapInner.SHOW_RADIUS_KM →
          q ∈ (MapInner.useFilteredPlaces d places center zoom (some sid)).1)) := by
  constructor
  · intro hz
    constructor
    · simp [MapInner.useFilteredPlaces, if_pos hz,
        MapInner.selectedPlaceOf_eq_some places sid p hsid hp hpid huniq]
    · simp [MapInner.useFilteredPlaces, if_pos hz, MapInner.selectedPlaceOf]
  · intro hz
    obtain ⟨t, hS, hnotin⟩ :=
      MapInner.sorted_head_selected d center places sid p hnd hp hpid huniq
    have hout : (MapInner.useFilteredPlaces d places center zoom (some sid)).1 =
        ((MapInner.decorateMapPlace d center (some sid) p :: t).take
          MapInner.MAX_PLACES_ON_MAP).map (fun e => e.place) := by
      simp [MapInner.useFilteredPlaces, if_neg hz, hS]
    have htake : (MapInner.decorateMapPlace d center (some sid) p :: t).take
        MapInner.MAX_PLACES_ON_MAP =
        MapInner.decorateMapPlace d center (some sid) p :: t.take 49 := rfl
    have hout2 : (MapInner.useFilteredPlaces d places center zoom (some sid)).1 =
        p :: (t.take 49).map (fun e => e.place) := by
      rw [hout, htake, List.map_cons]
      rfl
    have hmemt : ∀ e ∈ t,
        e ∈ MapInner.placesWithDistance d center (some sid) places := by
      intro e he
      apply List.mem_mergeSort.mp
      rw [hS]
      exact List.mem_cons_of_mem _ he
    have hpwt : t.Pairwise (fun a b => MapInner.mapSortLE a b = true) := by
      have hsorted := List.sorted_mergeSort MapInner.mapSortLE_trans
        MapInner.mapSortLE_total
        (MapInner.placesWithDistance d center (some sid) places)
      rw [hS] at hsorted
      exact hsorted.of_cons
    have hnotsel : ∀ e ∈ t, e.isSelected = false := by
      intro e he
      cases hsel : e.isSelected with
      | false => rfl
      | true =>
        exfalso
        have heq := MapInner.selected_entry_unique d center places sid p huniq
          e (hmemt e he) hsel
        rw [heq] at he
        exact hnotin he
    have hdist : ∀ e ∈ t,
        e.distance = d center.1 center.2 e.place.lat e.place.lng := by
      intro e he
      have heq := ((MapInner.mem_placesWithDistance d center (some sid) places
        e).mp (hmemt e he)).2.1
      exact congrArg MapInner.MapEntry.distance heq
    have hplacemem : ∀ e ∈ t, e.place ∈ places := by
      intro e he
      exact ((MapInner.mem_placesWithDistance d center (some sid) places e).mp
        (hmemt e he)).1
    refine ⟨?_, ?_, ?_, ?_, ?_, ?_⟩
    · rw [hout2]
      rfl
    · rw [hout]
      rw [List.length_map, List.length_take]
      exact min_le_left _ _
    · intro q hq
      rw [hout2] at hq
      rcases List.mem_cons.mp hq with rfl | hq'
      · exact hp
      · obtain ⟨e, he, rfl⟩ := List.mem_map.mp hq'
        exact hplacemem e ((List.take_sublist 49 t).subset he)
    · intro q hq hqp
      rw [hout2] at hq
      rcases List.mem_cons.mp hq with rfl | hq'
      · exact absurd rfl hqp
      · obtain ⟨e, he, rfl⟩ := List.mem_map.mp hq'
        have he' : e ∈ t := (List.take_sublist 49 t).subset he
        have hdisj := ((MapInner.mem_placesWithDistance d center (some sid)
          places e).mp (hmemt e he')).2.2
        rcases hdisj with hsel | hrad
        · rw [hnotsel e he'] at hsel
          cases hsel
        · exact hrad
    · rw [hout2]
      show ((t.take 49).map (fun e => e.place)).Pairwise _
      rw [List.pairwise_map]
      have hsub : (t.take 49).Pairwise
          (fun a b => MapInner.mapSortLE a b = true) :=
        hpwt.sublist (List.take_sublist 49 t)
      refine hsub.imp_of_mem ?_
      intro a b ha hb hle
      have ha' : a ∈ t := (List.take_sublist 49 t).subset ha
      have hb' : b ∈ t := (List.take_sublist 49 t).subset hb
      have hsa := hnotsel a ha'
      have hsb := hnotsel b hb'
      unfold MapInner.mapSortLE at hle
      rw [hsa, hsb] at hle
      simp only [Bool.false_and, Bool.false_or, beq_self_eq_true,
        Bool.true_and, decide_eq_true_eq] at hle
      rw [← hdist a ha', ← hdist b hb']
      exact hle
    · intro hlen q hq hqd
      have hlenS : (MapInner.decorateMapPlace d center (some sid) p :: t).length ≤
          MapInner.MAX_PLACES_ON_MAP := by
        rw [← hS, List.length_mergeSort]
        exact hlen
      have htake2 : (MapInner.decorateMapPlace d center (some sid) p :: t).take
          MapInner.MAX_PLACES_ON_MAP =
          MapInner.decorateMapPlace d center (some sid) p :: t := by
        exact List.take_of_length_le hlenS
      rw [hout, htake2]
      have hqmem : MapInner.decorateMapPlace d center (some sid) q ∈
          MapInner.placesWithDistance d center (some sid) places := by
        rw [MapInner.mem_placesWithDistance]
        exact ⟨hq, rfl, Or.inr hqd⟩
      have hqS : MapInner.decorateMapPlace d center (some sid) q ∈
          MapInner.decorateMapPlace d center (some sid) p :: t := by
        rw [← hS]
        exact List.mem_mergeSort.mpr hqmem
      exact List.mem_map_of_mem (fun e => e.place) hqS

/-- Witness for C3 at a concrete input. -/
theorem c3_witness :
    ¬ ((13 : ℚ) < MapInner.MIN_ZOOM_FOR_PINS) ∧
    (MapInner.useFilteredPlaces dZero [mapPlaceA, mapPlaceB] (0, 0) 13
      (some "p1")).1.head? = some mapPlaceA := by
  have hz : ¬ ((13 : ℚ) < MapInner.MIN_ZOOM_FOR_PINS) := by decide
  refine ⟨hz, ?_⟩
  exact ((c3_useFilteredPlaces_spec dZero [mapPlaceA, mapPlaceB] (0, 0) 13
    "p1" mapPlaceA (by decide) (by decide) (by decide) (by decide)
    (by decide)).2 hz).1

/-- C4: with well-formed two-number age buckets (a parsed `minAge` and a
truthy `maxAge`), the age predicate group passes iff some accepted bucket
[lo, hi] overlaps the place's age range [a, b], i.e.
NOT(b < lo OR a > hi); an empty ages set imposes no constraint. -/
theorem c4_age_overlap (ages : List String) (a b : ℤ)
    (hwf : ∀ s ∈ ages,
      (Page.bucketLo s).isSome ∧ Page.optTruthy (Page.bucketHi s) = true) :
    Page.agesPass [] [a, b] = true ∧
    (Page.agesPass ages [a, b] = true ↔
      ages = [] ∨ ∃ s ∈ ages, ∃ lo hi : ℤ,
        Page.bucketLo s = some lo ∧ Page.bucketHi s = some hi ∧
          ¬(b < lo ∨ a > hi)) :=
  ⟨rfl, Page.agesPass_iff ages a b hwf⟩

/-- Witness for C4 at the spec's concrete scenario:
ages `["0-1", "3-6"]` accept age range [2, 4] and reject [7, 10]. -/
theorem c4_witness :
    (∀ s ∈ ["0-1", "3-6"],
      (Page.bucketLo s).isSome ∧ Page.optTruthy (Page.bucketHi s) = true) ∧
    (Page.agesPass ["0-1", "3-6"] [2, 4] = true ↔
      ["0-1", "3-6"] = [] ∨ ∃ s ∈ ["0-1", "3-6"], ∃ lo hi : ℤ,
        Page.bucketLo s = some lo ∧ Page.bucketHi s = some hi ∧
          ¬((4 : ℤ) < lo ∨ (2 : ℤ) > hi)) ∧
    Page.agesPass ["0-1", "3-6"] [2, 4] = true ∧
    Page.agesPass ["0-1", "3-6"] [7, 10] = false := by
  have hwf : ∀ s ∈ ["0-1", "3-6"],
      (Page.bucketLo s).isSome ∧ Page.optTruthy (Page.bucketHi s) = true := by
    decide
  exact ⟨hwf, (c4_age_overlap ["0-1", "3-6"] 2 4 hwf).2, by decide, by decide⟩

/-- C5: the Haversine distance is symmetric, zero on identical points
(exactly, hence within any epsilon), and non-negative. -/
theorem c5_distance_symm_self_nonneg (lat1 lng1 lat2 lng2 : ℝ) :
    Geo.calculateDistance lat1 lng1 lat2 lng2 =
      Geo.calculateDistance lat2 lng2 lat1 lng1 ∧
    Geo.calculateDistance lat1 lng1 lat1 lng1 = 0 ∧
    0 ≤ Geo.calculateDistance lat1 lng1 lat2 lng2 :=
  ⟨Geo.calculateDistance_symm lat1 lng1 lat2 lng2,
    Geo.calculateDistance_self lat1 lng1,
    Geo.calculateDistance_nonneg lat1 lng1 lat2 lng2⟩

/-- C7: a cache read is a hit (returning the stored payload and leaving
the store untouched) iff an entry exists and `now - fetchedAt < ttl`
strictly; a read at `t0 + ttl - 1` after a store at `t0` hits and one at
`t0 + ttl + 1` misses, restamping the entry with the fresh data and time;
the rainfall cache uses ttl = 600000 ms and the carpark cache its own
per-dataset ttl (3600000 ms in the cited hook). -/
theorem c7_ttlCache_spec :
    (∀ (α : Type) (p fetched : α) (t now ttl : ℤ),
      loadWithCache ttl ⟨some p, some t⟩ now fetched =
        if now - t < ttl then (p, ⟨some p, some t⟩)
        else (fetched, ⟨some fetched, some now⟩)) ∧
    (∀ (α : Type) (st : CacheState α) (now : ℤ) (fetched : α) (ttl : ℤ),
      st.payload = none ∨ st.time = none →
      loadWithCache ttl st now fetched = (fetched, ⟨some fetched, some now⟩)) ∧
    (∀ (α : Type) (p fetched : α) (t0 : ℤ),
      loadRainfallCached ⟨some p, some t0⟩ (t0 + rainfallCacheTtlMs - 1)
        fetched = (p, ⟨some p, some t0⟩)) ∧
    (∀ (α : Type) (p fetched : α) (t0 : ℤ),
      loadRainfallCached ⟨some p, some t0⟩ (t0 + rainfallCacheTtlMs + 1)
        fetched =
        (fetched, ⟨some fetched, some (t0 + rainfallCacheTtlMs + 1)⟩)) ∧
    (∀ (α : Type) (p fetched : α) (t0 : ℤ),
      loadCarparksCached ⟨some p, some t0⟩ (t0 + carparkCacheTtlMs - 1)
        fetched = (p, ⟨some p, some t0⟩)) ∧
    rainfallCacheTtlMs = 600000 ∧ carparkCacheTtlMs = 3600000 := by
  refine ⟨?_, ?_, ?_, ?_, ?_, rfl, rfl⟩
  · intro α p fetched t now ttl
    rfl
  · intro α st now fetched ttl h
    obtain ⟨pay, tim⟩ := st
    rcases pay with _ | p0 <;> rcases tim with _ | t0 <;>
      simp_all [loadWithCache]
  · intro α p fetched t0
    have hcond : t0 + rainfallCacheTtlMs - 1 - t0 < rainfallCacheTtlMs := by
      omega
    simp [loadRainfallCached, loadWithCache, hcond]
  · intro α p fetched t0
    have hcond : ¬ (t0 + rainfallCacheTtlMs + 1 - t0 < rainfallCacheTtlMs) := by
      omega
    simp [loadRainfallCached, loadWithCache, hcond]
  · intro α p fetched t0
    have hcond : t0 + carparkCacheTtlMs - 1 - t0 < carparkCacheTtlMs := by
      omega
    simp [loadCarparksCached, loadWithCache, hcond]

/-- Witness for C7 at a concrete input (an absent payload misses and the
store is restamped). -/
theorem c7_witness :
    ((⟨none, some 5⟩ : CacheState ℤ).payload = none ∨
      (⟨none, some 5⟩ : CacheState ℤ).time = none) ∧
    loadWithCache 600000 (⟨none, some 5⟩ : CacheState ℤ) 10 7 =
      (7, ⟨some 7, some 10⟩) :=
  ⟨Or.inl rfl,
    c7_ttlCache_spec.2.1 ℤ ⟨none, some 5⟩ 10 7 600000 (Or.inl rfl)⟩

/-- C8, counterexample: the claim says out-of-range coordinates make the
distance computation fail fast and the record be rejected.  In fact
`calculateDistance` computes a value (here 0) for latitude 200 and
longitude 500, and `getNearbyCarparks` keeps a record with those
coordinates like any other. -/
theorem c8_counterexample :
    Geo.calculateDistance 200 500 200 500 = 0 ∧
    CarparkLib.getNearbyCarparks dZero [badCarpark] 0 0 1 =
      [CarparkLib.decorateCarpark dZero 0 0 badCarpark] := by
  refine ⟨Geo.calculateDistance_self 200 500, ?_⟩
  simp [CarparkLib.getNearbyCarparks, CarparkLib.carparksWithinRadius,
    CarparkLib.decorateCarpark, dZero]

/-- C8, amended: no coordinate validation exists anywhere on the distance
path: the Haversine computation is total and non-negative for every real
input (in range or not; nothing is clamped or rejected), and any record
within the radius — out-of-range coordinates included — reaches the
output of the radius filter. -/
theorem c8_no_validation :
    (∀ lat1 lng1 lat2 lng2 : ℝ,
      0 ≤ Geo.calculateDistance lat1 lng1 lat2 lng2) ∧
    (∀ (d : ℚ → ℚ → ℚ → ℚ → ℚ) (carparks : List CarparkLib.Carpark)
      (centerLat centerLng radiusKm : ℚ) (cp : CarparkLib.Carpark),
      cp ∈ carparks →
      d centerLat centerLng cp.latitude cp.longitude ≤ radiusKm →
      CarparkLib.decorateCarpark d centerLat centerLng cp ∈
        CarparkLib.getNearbyCarparks d carparks centerLat centerLng radiusKm) := by
  refine ⟨Geo.calculateDistance_nonneg, ?_⟩
  intro d carparks centerLat centerLng radiusKm cp hm hle
  rw [CarparkLib.mem_getNearbyCarparks, CarparkLib.mem_carparksWithinRadius]
  exact ⟨cp, hm, rfl, hle⟩

/-- Witness for C8 at the out-of-range record. -/
theorem c8_witness :
    badCarpark ∈ [badCarpark] ∧
    dZero 0 0 badCarpark.latitude badCarpark.longitude ≤ 1 ∧
    CarparkLib.decorateCarpark dZero 0 0 badCarpark ∈
      CarparkLib.getNearbyCarparks dZero [badCarpark] 0 0 1 := by
  have hm : badCarpark ∈ [badCarpark] := List.mem_singleton.mpr rfl
  have hle : dZero 0 0 badCarpark.latitude badCarpark.longitude ≤ 1 := by
    decide
  exact ⟨hm, hle, c8_no_validation.2 dZero [badCarpark] 0 0 1 badCarpark hm hle⟩

/-- C9, counterexample: the claim says the nearest-record lookup returns
new decorated records rather than the original record objects.  In fact
`getRainfallAtLocation` returns an element of its input list as-is (the
`RainfallGridPoint` type carries no distance field). -/
theorem c9_counterexample :
    ¬ (∀ (d : ℚ → ℚ → ℚ → ℚ → ℚ) (gps : List Rainfall.RainfallGridPoint)
        (lat lng : ℚ) (r : Rainfall.RainfallGridPoint),
        Rainfall.getRainfallAtLocation d gps lat lng = some r → r ∉ gps) := by
  intro h
  exact h dZero [gridCellB] 5 5 gridCellB (by decide) (by decide)

/-- C9, amended: neither function mutates its inputs (both are pure);
`getNearbyCarparks` produces new decorated records (the original fields
plus the computed distance), while `getRainfallAtLocation` returns the
matched original record itself, without a distance field. -/
theorem c9_pure_outputs :
    (∀ (d : ℚ → ℚ → ℚ → ℚ → ℚ) (carparks : List CarparkLib.Carpark)
      (centerLat centerLng radiusKm : ℚ) (c : CarparkLib.CarparkWithDistance),
      c ∈ CarparkLib.getNearbyCarparks d carparks centerLat centerLng radiusKm →
      ∃ cp ∈ carparks,
        c = CarparkLib.decorateCarpark d centerLat centerLng cp) ∧
    (∀ (d : ℚ → ℚ → ℚ → ℚ → ℚ) (gps : List Rainfall.RainfallGridPoint)
      (lat lng : ℚ) (r : Rainfall.RainfallGridPoint),
      Rainfall.getRainfallAtLocation d gps lat lng = some r → r ∈ gps) := by
  constructor
  · intro d carparks centerLat centerLng radiusKm c hc
    rw [CarparkLib.mem_getNearbyCarparks,
      CarparkLib.mem_carparksWithinRadius] at hc
    obtain ⟨cp, hcp, heq, -⟩ := hc
    exact ⟨cp, hcp, heq⟩
  · intro d gps lat lng r h
    exact (Rainfall.getRainfallAtLocation_min d gps lat lng r h).1

/-- Witness for C9 at concrete inputs. -/
theorem c9_witness :
    CarparkLib.decorateCarpark dZero 3 3 carparkA ∈
      CarparkLib.getNearbyCarparks dZero [carparkA] 3 3 1 ∧
    (∃ cp ∈ [carparkA],
      CarparkLib.decorateCarpark dZero 3 3 carparkA =
        CarparkLib.decorateCarpark dZero 3 3 cp) ∧
    Rainfall.getRainfallAtLocation dZero [gridCellB] 5 5 = some gridCellB ∧
    gridCellB ∈ [gridCellB] := by
  have hc : CarparkLib.decorateCarpark dZero 3 3 carparkA ∈
      CarparkLib.getNearbyCarparks dZero [carparkA] 3 3 1 := by
    rw [CarparkLib.mem_getNearbyCarparks, CarparkLib.mem_carparksWithinRadius]
    exact ⟨carparkA, List.mem_singleton.mpr rfl, rfl, by decide⟩
  have hr : Rainfall.getRainfallAtLocation dZero [gridCellB] 5 5 =
      some gridCellB := by decide
  exact ⟨hc, c9_pure_outputs.1 dZero [carparkA] 3 3 1 _ hc, hr,
    c9_pure_outputs.2 dZero [gridCellB] 5 5 gridCellB hr⟩

/-- C10: whatever the filter settings (search text, favorites-only,
regions, categories, indoor/outdoor, ages, prices, sort mode), every place
in the main page's filtered list is within 4 km of the list reference
center — the radius cull is unconditional and runs before every attribute
predicate. -/
theorem c10_radius_cull (d : ℚ → ℚ → ℚ → ℚ → ℚ) (refLat refLng : ℚ)
    (searchQuery : String) (showFavoritesOnly : Bool)
    (favorites : List String) (filters : Page.PageFilters) (sortBy : String)
    (places : List Page.PagePlace) (p : Page.PagePlace)
    (hp : p ∈ Page.filteredPlaces d refLat refLng searchQuery
      showFavoritesOnly favorites filters sortBy places) :
    d refLat refLng p.lat p.lng ≤ 4 := by
  unfold Page.filteredPlaces at hp
  rw [List.mem_mergeSort, List.mem_filter] at hp
  exact Page.placePasses_radius d refLat refLng searchQuery showFavoritesOnly
    favorites filters p hp.2

/-- Witness for C10 at a concrete input. -/
theorem c10_witness :
    pagePlaceA ∈ Page.filteredPlaces dZero 0 0 "" false [] emptyPageFilters
      "default" [pagePlaceA] ∧
    dZero 0 0 pagePlaceA.lat pagePlaceA.lng ≤ 4 := by
  have hp : pagePlaceA ∈ Page.filteredPlaces dZero 0 0 "" false []
      emptyPageFilters "default" [pagePlaceA] := by
    unfold Page.filteredPlaces
    rw [List.mem_mergeSort, List.mem_filter]
    exact ⟨List.mem_singleton.mpr rfl, by decide⟩
  exact ⟨hp, c10_radius_cull dZero 0 0 "" false [] emptyPageFilters "default"
    [pagePlaceA] pagePlaceA hp⟩
